import Mathlib

/-
Shallow embedding of three handler files of the huaweicloud Terraform
provider: the DMS maintain-window data source
(dataSourceDmsMaintainWindowV1Read), the CCE cluster v3 resource
(resourceCCEClusterV3Create/Read/Update/Delete with its two refresh
functions) and the VPC v1 resource
(resourceVirtualPrivateCloudV1Create/Read/Update/Delete with its two
refresh functions).

Modelling conventions:
- Remote call outcomes (the golangsdk client calls) are passed in
  explicitly through an environment record, one field per call site; a
  polling refresh function receives the outcome of the call(s) made in
  one poll step, and the waiter consumes a list of per-step outcomes.
- The golangsdk Extract() helpers follow the gophercloud convention of
  returning a pointer to a zero-valued result struct together with the
  error (never a nil pointer); extractCluster / extractCert below encode
  this, which is why code that keeps using the result after a swallowed
  error reads zero-valued fields instead of crashing.
- Terraform ResourceData is a flat record: d.Get on an unset optional
  field yields the zero value of its type, modelled by Option fields
  read through getD.
-/

namespace HW

/-- Errors surfaced by the golangsdk client: the dedicated 404 type
(golangsdk.ErrDefault404), an unexpected-response-code error carrying the
actual HTTP status (golangsdk.ErrUnexpectedResponseCode), or any other
error. A Go type assertion against one of the first two matches exactly
that constructor. -/
inductive SdkErr where
  | default404
  | unexpectedCode (actual : Nat)
  | other (msg : String)
deriving DecidableEq, Repr

/-- Rendering of an sdk error as the string interpolated by fmt.Errorf. -/
def sdkErrMsg : SdkErr → String
  | SdkErr.default404 => "Resource not found"
  | SdkErr.unexpectedCode n => "unexpected HTTP response code " ++ toString n
  | SdkErr.other m => m

/-- Result of one lifecycle handler invocation: nil error or a non-nil
error with its message. -/
inductive OpResult where
  | ok
  | err (msg : String)
deriving DecidableEq, Repr

/- ===== DMS maintain-window data source ===== -/

/-- One maintain window as returned by maintainwindows.Get: ID (the
sequence number), Begin, End, Default. -/
structure MaintainWindow where
  id : Int
  begin : String
  end_ : String
  default : Bool
deriving DecidableEq, Repr

/-- The ResourceData of the data source: the identity plus the four
schema fields (seq, begin, end, default), each Optional and Computed.
none models a field the caller left unset; d.Get then yields the zero
value of the type. -/
structure MWData where
  id : String
  seq : Option Int
  begin : Option String
  end_ : Option String
  default : Option Bool
deriving DecidableEq, Repr

/-- The filter loop of dataSourceDmsMaintainWindowV1Read: each window is
skipped (continue) when a guard fires, otherwise appended to
filteredMVs. Guards, in source order: seq nonzero and different from the
window ID; begin nonempty and different; end nonempty and different;
window Default different from the (unguarded) default filter value. -/
def filterMaintainWindows (d : MWData) : List MaintainWindow → List MaintainWindow
  | [] => []
  | mv :: rest =>
    if d.seq.getD 0 != 0 && mv.id != d.seq.getD 0 then
      filterMaintainWindows d rest
    else if d.begin.getD "" != "" && mv.begin != d.begin.getD "" then
      filterMaintainWindows d rest
    else if d.end_.getD "" != "" && mv.end_ != d.end_.getD "" then
      filterMaintainWindows d rest
    else if mv.default != d.default.getD false then
      filterMaintainWindows d rest
    else
      mv :: filterMaintainWindows d rest

/-- Keep-predicate equivalent of the filter loop guards, used to state
the filter characterisation. -/
def mwKeep (d : MWData) (mv : MaintainWindow) : Bool :=
  !(d.seq.getD 0 != 0 && mv.id != d.seq.getD 0) &&
  !(d.begin.getD "" != "" && mv.begin != d.begin.getD "") &&
  !(d.end_.getD "" != "" && mv.end_ != d.end_.getD "") &&
  !(mv.default != d.default.getD false)

/-- dataSourceDmsMaintainWindowV1Read. clientErr is the outcome of
config.dmsV1Client, getResult of maintainwindows.Get(...).Extract().
With fewer than one filtered window it returns the no-results error and
leaves d untouched; otherwise it takes filteredMVs[0], sets the identity
to strconv.Itoa of the window ID and writes begin/end/default. -/
def dataSourceDmsMaintainWindowV1Read (clientErr : Option String)
    (getResult : Except SdkErr (List MaintainWindow)) (d : MWData) :
    MWData × OpResult :=
  match clientErr with
  | some e => (d, OpResult.err ("Error creating HuaweiCloud dms client: " ++ e))
  | none =>
    match getResult with
    | Except.error e => (d, OpResult.err (sdkErrMsg e))
    | Except.ok maintainWindows =>
      match filterMaintainWindows d maintainWindows with
      | [] => (d, OpResult.err "Your query returned no results. Please change your filters and try again.")
      | mw :: _ =>
        ({ d with id := toString mw.id, begin := some mw.begin,
                  end_ := some mw.end_, default := some mw.default },
         OpResult.ok)

/- ===== Remote objects ===== -/

/-- A VPC as returned by vpcs.Get / vpcs.Create: the fields this
provider reads (ID, Name, CIDR, Status, EnableSharedSnat, Routes).
Routes are kept as (DestinationCIDR, NextHop) pairs. -/
structure Vpc where
  id : String
  name : String
  cidr : String
  status : String
  enableSharedSnat : Bool
  routes : List (String × String)
deriving DecidableEq, Repr

/-- The zero value of the Vpc struct, what a golangsdk Extract() hands
back (behind a non-nil pointer) when the call failed. -/
def zeroVpc : Vpc := { id := "", name := "", cidr := "", status := "", enableSharedSnat := false, routes := [] }

structure ClusterMetadata where
  id : String
  name : String
deriving DecidableEq, Repr

structure ClusterStatus where
  phase : String
deriving DecidableEq, Repr

/-- The cluster Spec fields this provider reads. clusterType stands for
the source field named Type. -/
structure ClusterSpec where
  clusterType : String
  flavor : String
  version : String
  description : String
  billingMode : Int
  vpcId : String
  subnetId : String
  highwaySubnet : String
  containerMode : String
  containerCidr : String
  authMode : String
deriving DecidableEq, Repr

/-- A CCE cluster as returned by clusters.Get / clusters.Create. -/
structure Cluster where
  metadata : ClusterMetadata
  spec : ClusterSpec
  status : ClusterStatus
deriving DecidableEq, Repr

/-- The zero value of the cluster struct (see zeroVpc). -/
def zeroCluster : Cluster :=
  { metadata := { id := "", name := "" },
    spec := { clusterType := "", flavor := "", version := "", description := "",
              billingMode := 0, vpcId := "", subnetId := "", highwaySubnet := "",
              containerMode := "", containerCidr := "", authMode := "" },
    status := { phase := "" } }

/-- The value vpcs.Get(...).Extract() evaluates to: the fetched object,
or a pointer to the zero-valued struct when the call errored. -/
def extractVpc : Except SdkErr Vpc → Vpc
  | Except.ok v => v
  | Except.error _ => zeroVpc

/-- The value clusters.Get(...).Extract() evaluates to (see extractVpc). -/
def extractCluster : Except SdkErr Cluster → Cluster
  | Except.ok c => c
  | Except.error _ => zeroCluster

structure CertCluster where
  name : String
  server : String
  certAuthorityData : String
deriving DecidableEq, Repr

structure CertUser where
  name : String
  clientCertData : String
  clientKeyData : String
deriving DecidableEq, Repr

/-- The certificate object returned by clusters.GetCert. -/
structure Certificate where
  clusters : List CertCluster
  users : List CertUser
deriving DecidableEq, Repr

def zeroCertificate : Certificate := { clusters := [], users := [] }

/-- The value clusters.GetCert(...).Extract() evaluates to (see
extractVpc): on error the loops over cert.Clusters / cert.Users run over
the empty slices of the zero-valued struct. -/
def extractCert : Except SdkErr Certificate → Certificate
  | Except.ok c => c
  | Except.error _ => zeroCertificate

/- ===== State-change waiter ===== -/

/-- The (interface value, status string, error) triple a
resource.StateRefreshFunc returns. -/
structure RefreshOut (α : Type) where
  value : Option α
  status : String
  refreshErr : Option String
deriving DecidableEq, Repr

/-- Outcome of one WaitForState run: the last refreshed value on
success, an error (a refresh error or an unexpected-state error), or a
timeout when the poll budget is exhausted while still pending. -/
inductive WaitResult (α : Type) where
  | ok (v : Option α)
  | errS (msg : String)
  | timeout
deriving DecidableEq, Repr

/-- Modelled from the spec: the generic state-change waiter (spec 4.2),
realised by resource.StateChangeConf.WaitForState of the plugin SDK,
which is not under src/. Given the configured pending and target status
lists it repeatedly queries the refresh function - here, consumes a list
of per-step refresh outcomes - until: the refresh returns an error
(fatal), the status is a target (success), the status is still pending
(keep polling), or the status is neither pending nor target, an explicit
failure status, which is fatal; an exhausted list is the overall
timeout (fatal). -/
def waitForState {α : Type} (pending target : List String) :
    List (RefreshOut α) → WaitResult α
  | [] => WaitResult.timeout
  | step :: rest =>
    match step.refreshErr with
    | some m => WaitResult.errS m
    | none =>
      if target.contains step.status then WaitResult.ok step.value
      else if pending.contains step.status then waitForState pending target rest
      else WaitResult.errS ("unexpected state " ++ step.status)

/- ===== Refresh functions (from source) ===== -/

/-- waitForVpcActive, given the outcome of the vpcs.Get call of one poll
step: an error is returned directly; status OK maps to ACTIVE; status
DOWN is a fatal refresh error (the source formats the status in single
quotes into the message); any other status is passed through. -/
def waitForVpcActive (get : Except SdkErr Vpc) : RefreshOut Vpc :=
  match get with
  | Except.error e => { value := none, status := "", refreshErr := some (sdkErrMsg e) }
  | Except.ok n =>
    if n.status == "OK" then { value := some n, status := "ACTIVE", refreshErr := none }
    else if n.status == "DOWN" then
      { value := none, status := "", refreshErr := some ("Vpc status: " ++ n.status) }
    else { value := some n, status := n.status, refreshErr := none }

/-- waitForVpcDelete, given the outcomes of the vpcs.Get call and of the
vpcs.Delete call this poll step issues after a successful get. A 404
from the get means DELETED with nil error; any other get error is passed
through with status ACTIVE (the delete call is then not reached). On a
successful get the step issues vpcs.Delete: 404 means DELETED, an
unexpected-response-code error with Actual 409 means ACTIVE with nil
error, any other delete error is passed through with status ACTIVE, and
a successful delete means ACTIVE with nil error. -/
def waitForVpcDelete (get : Except SdkErr Vpc) (del : Except SdkErr Unit) :
    RefreshOut Vpc :=
  match get with
  | Except.error SdkErr.default404 =>
    { value := some (extractVpc get), status := "DELETED", refreshErr := none }
  | Except.error e =>
    { value := some (extractVpc get), status := "ACTIVE", refreshErr := some (sdkErrMsg e) }
  | Except.ok r =>
    match del with
    | Except.error SdkErr.default404 =>
      { value := some r, status := "DELETED", refreshErr := none }
    | Except.error (SdkErr.unexpectedCode actual) =>
      if actual == 409 then { value := some r, status := "ACTIVE", refreshErr := none }
      else { value := some r, status := "ACTIVE", refreshErr := some (sdkErrMsg (SdkErr.unexpectedCode actual)) }
    | Except.error e =>
      { value := some r, status := "ACTIVE", refreshErr := some (sdkErrMsg e) }
    | Except.ok _ => { value := some r, status := "ACTIVE", refreshErr := none }

/-- waitForCCEClusterActive, given the outcome of the clusters.Get call
of one poll step: an error is returned directly; otherwise the cluster
status phase is the reported status. -/
def waitForCCEClusterActive (get : Except SdkErr Cluster) : RefreshOut Cluster :=
  match get with
  | Except.error e => { value := none, status := "", refreshErr := some (sdkErrMsg e) }
  | Except.ok n => { value := some n, status := n.status.phase, refreshErr := none }

/-- waitForCCEClusterDelete, given the outcome of the clusters.Get call
of one poll step. The source only returns early on a 404 (status
Deleted, nil error); any other error FALLS THROUGH to the phase check,
where r is the zero-valued struct Extract() returned, so the step
reports Available with nil error and the error is swallowed. A fetched
cluster reports Deleting when its phase is Deleting and Available
otherwise. -/
def waitForCCEClusterDelete (get : Except SdkErr Cluster) : RefreshOut Cluster :=
  let r := extractCluster get
  match get with
  | Except.error SdkErr.default404 =>
    { value := some r, status := "Deleted", refreshErr := none }
  | _ =>
    if r.status.phase == "Deleting" then
      { value := some r, status := "Deleting", refreshErr := none }
    else
      { value := some r, status := "Available", refreshErr := none }

/- ===== Schema embedding ===== -/

/-- One field of a resource schema with the flags the invariants talk
about. -/
structure SchemaField where
  fieldName : String
  required : Bool
  optional : Bool
  computed : Bool
  forceNew : Bool
deriving DecidableEq, Repr

/-- The resourceVirtualPrivateCloudV1 schema. The tags entry comes from
the tagsSchema() helper, which is not under src/; modelled from the
spec as an optional, non-ForceNew map of the resource tags. -/
def vpcSchema : List SchemaField := [
  { fieldName := "region", required := false, optional := true, computed := true, forceNew := true },
  { fieldName := "name", required := true, optional := false, computed := false, forceNew := false },
  { fieldName := "cidr", required := true, optional := false, computed := false, forceNew := false },
  { fieldName := "status", required := false, optional := false, computed := true, forceNew := false },
  { fieldName := "shared", required := false, optional := false, computed := true, forceNew := false },
  { fieldName := "routes", required := false, optional := false, computed := true, forceNew := false },
  { fieldName := "tags", required := false, optional := true, computed := false, forceNew := false }]

/-- The resourceCCEClusterV3 schema. -/
def cceSchema : List SchemaField := [
  { fieldName := "region", required := false, optional := true, computed := true, forceNew := true },
  { fieldName := "name", required := true, optional := false, computed := false, forceNew := true },
  { fieldName := "labels", required := false, optional := true, computed := false, forceNew := true },
  { fieldName := "annotations", required := false, optional := true, computed := false, forceNew := true },
  { fieldName := "flavor_id", required := true, optional := false, computed := false, forceNew := true },
  { fieldName := "cluster_version", required := false, optional := true, computed := true, forceNew := true },
  { fieldName := "cluster_type", required := true, optional := false, computed := false, forceNew := true },
  { fieldName := "description", required := false, optional := true, computed := true, forceNew := false },
  { fieldName := "billing_mode", required := false, optional := true, computed := true, forceNew := true },
  { fieldName := "vpc_id", required := true, optional := false, computed := false, forceNew := true },
  { fieldName := "subnet_id", required := true, optional := false, computed := false, forceNew := true },
  { fieldName := "highway_subnet_id", required := false, optional := true, computed := true, forceNew := true },
  { fieldName := "extend_param", required := false, optional := true, computed := false, forceNew := true },
  { fieldName := "container_network_type", required := true, optional := false, computed := false, forceNew := true },
  { fieldName := "container_network_cidr", required := false, optional := true, computed := true, forceNew := true },
  { fieldName := "authentication_mode", required := false, optional := true, computed := false, forceNew := true },
  { fieldName := "authenticating_proxy_ca", required := false, optional := true, computed := false, forceNew := true },
  { fieldName := "multi_az", required := false, optional := true, computed := false, forceNew := true },
  { fieldName := "eip", required := false, optional := true, computed := false, forceNew := true },
  { fieldName := "kube_proxy_mode", required := false, optional := true, computed := false, forceNew := true },
  { fieldName := "status", required := false, optional := false, computed := true, forceNew := false },
  { fieldName := "certificate_clusters", required := false, optional := false, computed := true, forceNew := false },
  { fieldName := "certificate_users", required := false, optional := false, computed := true, forceNew := false }]

/-- Names of the immutable-after-creation (ForceNew) fields of a schema. -/
def forceNewFields (s : List SchemaField) : List String :=
  (s.filter (fun f => f.forceNew)).map (fun f => f.fieldName)

/- ===== VPC resource ===== -/

/-- The ResourceData record of the VPC resource: identity plus schema
fields. -/
structure VpcData where
  id : String
  name : String
  cidr : String
  status : String
  shared : Bool
  routes : List (String × String)
  region : String
  tags : List (String × String)
deriving DecidableEq, Repr

/-- HasChange flags for the updatable VPC fields. -/
structure VpcChanges where
  name : Bool
  cidr : Bool
  tags : Bool
deriving DecidableEq, Repr

/-- d.HasChange by field name. -/
def vpcHasChange (ch : VpcChanges) : String → Bool
  | "name" => ch.name
  | "cidr" => ch.cidr
  | "tags" => ch.tags
  | _ => false

/-- vpcs.UpdateOpts as filled by resourceVirtualPrivateCloudV1Update:
none models a field the handler left at its zero value (omitted from the
request), some a field it assigned. -/
structure VpcUpdateOpts where
  name : Option String
  cidr : Option String
deriving DecidableEq, Repr

/-- Names of the fields present in a VPC update payload. -/
def VpcUpdateOpts.sentFields (o : VpcUpdateOpts) : List String :=
  (if o.name.isSome then ["name"] else []) ++ (if o.cidr.isSome then ["cidr"] else [])

/-- The payload construction of resourceVirtualPrivateCloudV1Update:
each field is assigned exactly when d.HasChange reports it changed. -/
def vpcUpdateOpts (ch : VpcChanges) (d : VpcData) : VpcUpdateOpts :=
  { name := if ch.name then some d.name else none,
    cidr := if ch.cidr then some d.cidr else none }

/-- Outcomes of every remote call a VPC handler invocation can make.
updateResult is a function of the payload actually sent. -/
structure VpcEnv where
  clientV1Err : Option String
  clientV2Err : Option String
  region : String
  createResult : Except SdkErr Vpc
  activeTrace : List (Except SdkErr Vpc)
  tagCreateResult : Except SdkErr Unit
  getResult : Except SdkErr Vpc
  tagsGetResult : Except SdkErr (List (String × String))
  updateResult : VpcUpdateOpts → Except SdkErr Vpc
  tagUpdateResult : Except SdkErr Unit
  deleteTrace : List (Except SdkErr Vpc × Except SdkErr Unit)

/-- GetRegion(d, config): the region field of d when set, else the
configured region. -/
def vpcGetRegion (env : VpcEnv) (d : VpcData) : String :=
  if d.region != "" then d.region else env.region

/-- resourceVirtualPrivateCloudV1Read. A 404 from vpcs.Get clears the
identity and returns nil; any other get error is wrapped and returned.
On success the computed fields are overwritten, then the v2 client
fetches the tags: a 404 there is only logged, any other tag error is
wrapped and returned, and fetched tags are stored. -/
def resourceVirtualPrivateCloudV1Read (env : VpcEnv) (d : VpcData) :
    VpcData × OpResult :=
  match env.clientV1Err with
  | some e => (d, OpResult.err ("Error creating Huaweicloud Vpc client: " ++ e))
  | none =>
    match env.getResult with
    | Except.error SdkErr.default404 => ({ d with id := "" }, OpResult.ok)
    | Except.error e => (d, OpResult.err ("Error retrieving Huaweicloud Vpc: " ++ sdkErrMsg e))
    | Except.ok n =>
      let d1 : VpcData :=
        { d with name := n.name, cidr := n.cidr, status := n.status,
                 shared := n.enableSharedSnat, region := vpcGetRegion env d,
                 routes := n.routes }
      match env.clientV2Err with
      | some e => (d1, OpResult.err ("Error creating Huaweicloud vpc client: " ++ e))
      | none =>
        match env.tagsGetResult with
        | Except.error SdkErr.default404 => (d1, OpResult.ok)
        | Except.error e =>
          (d1, OpResult.err ("Error fetching HuaweiCloud VPC " ++ d.id ++ " tags: " ++ sdkErrMsg e))
        | Except.ok ts => ({ d1 with tags := ts }, OpResult.ok)

/-- resourceVirtualPrivateCloudV1Create: vpcs.Create, then SetId on its
result, then the CREATING -> ACTIVE waiter over waitForVpcActive, then
tags.Create when the configuration carries tags, then a final Read. -/
def resourceVirtualPrivateCloudV1Create (env : VpcEnv) (d : VpcData) :
    VpcData × OpResult :=
  match env.clientV1Err with
  | some e => (d, OpResult.err ("Error creating Huaweicloud vpc client: " ++ e))
  | none =>
    match env.createResult with
    | Except.error e => (d, OpResult.err ("Error creating Huaweicloud VPC: " ++ sdkErrMsg e))
    | Except.ok n =>
      let d1 : VpcData := { d with id := n.id }
      match waitForState ["CREATING"] ["ACTIVE"] (env.activeTrace.map waitForVpcActive) with
      | WaitResult.errS m =>
        (d1, OpResult.err ("Error waiting for Vpc (" ++ n.id ++ ") to become ACTIVE: " ++ m))
      | WaitResult.timeout =>
        (d1, OpResult.err ("Error waiting for Vpc (" ++ n.id ++ ") to become ACTIVE: timeout"))
      | WaitResult.ok _ =>
        if d1.tags.length > 0 then
          match env.clientV2Err with
          | some e => (d1, OpResult.err ("Error creating Huaweicloud vpc client: " ++ e))
          | none =>
            match env.tagCreateResult with
            | Except.error e =>
              (d1, OpResult.err ("Error setting tags of VirtualPrivateCloud " ++ n.id ++ ": " ++ sdkErrMsg e))
            | Except.ok _ => resourceVirtualPrivateCloudV1Read env d1
        else resourceVirtualPrivateCloudV1Read env d1

/-- resourceVirtualPrivateCloudV1Update: build UpdateOpts from the
changed fields, vpcs.Update, then (when tags changed) the tag update
through the v2 client, then a final Read. -/
def resourceVirtualPrivateCloudV1Update (env : VpcEnv) (ch : VpcChanges) (d : VpcData) :
    VpcData × OpResult :=
  match env.clientV1Err with
  | some e => (d, OpResult.err ("Error creating Huaweicloud Vpc: " ++ e))
  | none =>
    match env.updateResult (vpcUpdateOpts ch d) with
    | Except.error e => (d, OpResult.err ("Error updating Huaweicloud Vpc: " ++ sdkErrMsg e))
    | Except.ok _ =>
      if ch.tags then
        match env.clientV2Err with
        | some e => (d, OpResult.err ("Error creating Huaweicloud vpc client: " ++ e))
        | none =>
          match env.tagUpdateResult with
          | Except.error e =>
            (d, OpResult.err ("Error updating tags of VPC " ++ d.id ++ ": " ++ sdkErrMsg e))
          | Except.ok _ => resourceVirtualPrivateCloudV1Read env d
      else resourceVirtualPrivateCloudV1Read env d

/-- resourceVirtualPrivateCloudV1Delete: no removal call of its own; it
enters the ACTIVE -> DELETED waiter directly, each poll step of
waitForVpcDelete issuing the get and the delete call. Success clears the
identity; a waiter failure is wrapped and returned with the identity
untouched. -/
def resourceVirtualPrivateCloudV1Delete (env : VpcEnv) (d : VpcData) :
    VpcData × OpResult :=
  match env.clientV1Err with
  | some e => (d, OpResult.err ("Error creating Huaweicloud vpc: " ++ e))
  | none =>
    match waitForState ["ACTIVE"] ["DELETED"]
        (env.deleteTrace.map (fun p => waitForVpcDelete p.1 p.2)) with
    | WaitResult.ok _ => ({ d with id := "" }, OpResult.ok)
    | WaitResult.errS m => (d, OpResult.err ("Error deleting Huaweicloud Vpc: " ++ m))
    | WaitResult.timeout => (d, OpResult.err ("Error deleting Huaweicloud Vpc: timeout"))

/- ===== CCE cluster resource ===== -/

/-- The ResourceData record of the CCE cluster resource: identity plus
the schema fields the handlers touch. Certificate lists are kept as
(name, server, certificate_authority_data) and
(name, client_certificate_data, client_key_data) triples. -/
structure CCEData where
  id : String
  name : String
  status : String
  flavorId : String
  clusterVersion : String
  clusterType : String
  description : String
  billingMode : Int
  vpcId : String
  subnetId : String
  highwaySubnetId : String
  containerNetworkType : String
  containerNetworkCidr : String
  authenticationMode : String
  region : String
  certificateClusters : List (String × String × String)
  certificateUsers : List (String × String × String)
deriving DecidableEq, Repr

/-- HasChange flags for the CCE update handler; description is the only
field it consults. -/
structure CCEChanges where
  description : Bool
deriving DecidableEq, Repr

def cceHasChange (ch : CCEChanges) : String → Bool
  | "description" => ch.description
  | _ => false

/-- clusters.UpdateOpts as filled by resourceCCEClusterV3Update: only
Spec.Description is ever assigned, and only when description changed. -/
structure CCEUpdateOpts where
  description : Option String
deriving DecidableEq, Repr

/-- Names of the fields present in a CCE update payload. -/
def CCEUpdateOpts.sentFields (o : CCEUpdateOpts) : List String :=
  if o.description.isSome then ["description"] else []

/-- The payload construction of resourceCCEClusterV3Update. -/
def cceUpdateOpts (ch : CCEChanges) (d : CCEData) : CCEUpdateOpts :=
  { description := if ch.description then some d.description else none }

/-- Outcomes of every remote call a CCE handler invocation can make. -/
structure CCEEnv where
  clientErr : Option String
  region : String
  createResult : Except SdkErr Cluster
  activeTrace : List (Except SdkErr Cluster)
  getResult : Except SdkErr Cluster
  certResult : Except SdkErr Certificate
  updateResult : CCEUpdateOpts → Except SdkErr Cluster
  deleteResult : Except SdkErr Unit
  deleteTrace : List (Except SdkErr Cluster)

/-- GetRegion(d, config) for the cluster resource. -/
def cceGetRegion (env : CCEEnv) (d : CCEData) : String :=
  if d.region != "" then d.region else env.region

/-- resourceCCEClusterV3Read. A 404 from clusters.Get clears the
identity and returns nil; any other get error is wrapped and returned.
On success the computed fields are overwritten; the clusters.GetCert
error, if any, is only logged, and the certificate loops then run over
the zero-valued certificate Extract() handed back, leaving both
certificate lists empty; the read still returns nil. -/
def resourceCCEClusterV3Read (env : CCEEnv) (d : CCEData) :
    CCEData × OpResult :=
  match env.clientErr with
  | some e => (d, OpResult.err ("Error creating HuaweiCloud CCE client: " ++ e))
  | none =>
    match env.getResult with
    | Except.error SdkErr.default404 => ({ d with id := "" }, OpResult.ok)
    | Except.error e => (d, OpResult.err ("Error retrieving HuaweiCloud CCE: " ++ sdkErrMsg e))
    | Except.ok n =>
      let d1 : CCEData :=
        { d with name := n.metadata.name, status := n.status.phase,
                 flavorId := n.spec.flavor, clusterVersion := n.spec.version,
                 clusterType := n.spec.clusterType, description := n.spec.description,
                 billingMode := n.spec.billingMode, vpcId := n.spec.vpcId,
                 subnetId := n.spec.subnetId, highwaySubnetId := n.spec.highwaySubnet,
                 containerNetworkType := n.spec.containerMode,
                 containerNetworkCidr := n.spec.containerCidr,
                 authenticationMode := n.spec.authMode,
                 region := cceGetRegion env d }
      let cert := extractCert env.certResult
      ({ d1 with
          certificateClusters := cert.clusters.map (fun c => (c.name, c.server, c.certAuthorityData)),
          certificateUsers := cert.users.map (fun u => (u.name, u.clientCertData, u.clientKeyData)) },
       OpResult.ok)

/-- resourceCCEClusterV3Create: clusters.Create, then the
Creating -> Available waiter over waitForCCEClusterActive, then SetId on
the created cluster id, then a final Read. -/
def resourceCCEClusterV3Create (env : CCEEnv) (d : CCEData) :
    CCEData × OpResult :=
  match env.clientErr with
  | some e => (d, OpResult.err ("Unable to create HuaweiCloud CCE client : " ++ e))
  | none =>
    match env.createResult with
    | Except.error e => (d, OpResult.err ("Error creating HuaweiCloud Cluster: " ++ sdkErrMsg e))
    | Except.ok create =>
      match waitForState ["Creating"] ["Available"] (env.activeTrace.map waitForCCEClusterActive) with
      | WaitResult.errS m => (d, OpResult.err ("Error creating HuaweiCloud CCE cluster: " ++ m))
      | WaitResult.timeout => (d, OpResult.err ("Error creating HuaweiCloud CCE cluster: timeout"))
      | WaitResult.ok _ => resourceCCEClusterV3Read env { d with id := create.metadata.id }

/-- resourceCCEClusterV3Update: build UpdateOpts from the changed
description, clusters.Update, then a final Read. -/
def resourceCCEClusterV3Update (env : CCEEnv) (ch : CCEChanges) (d : CCEData) :
    CCEData × OpResult :=
  match env.clientErr with
  | some e => (d, OpResult.err ("Error creating HuaweiCloud CCE Client: " ++ e))
  | none =>
    match env.updateResult (cceUpdateOpts ch d) with
    | Except.error e => (d, OpResult.err ("Error updating HuaweiCloud CCE: " ++ sdkErrMsg e))
    | Except.ok _ => resourceCCEClusterV3Read env d

/-- resourceCCEClusterV3Delete: one clusters.Delete call first - its
failure is wrapped and returned before any polling - then the
Deleting/Available/Unavailable -> Deleted waiter over
waitForCCEClusterDelete. Success clears the identity; a waiter failure
is wrapped and returned with the identity untouched. -/
def resourceCCEClusterV3Delete (env : CCEEnv) (d : CCEData) :
    CCEData × OpResult :=
  match env.clientErr with
  | some e => (d, OpResult.err ("Error creating HuaweiCloud CCE Client: " ++ e))
  | none =>
    match env.deleteResult with
    | Except.error e => (d, OpResult.err ("Error deleting HuaweiCloud CCE Cluster: " ++ sdkErrMsg e))
    | Except.ok _ =>
      match waitForState ["Deleting", "Available", "Unavailable"] ["Deleted"]
          (env.deleteTrace.map waitForCCEClusterDelete) with
      | WaitResult.ok _ => ({ d with id := "" }, OpResult.ok)
      | WaitResult.errS m => (d, OpResult.err ("Error deleting HuaweiCloud CCE cluster: " ++ m))
      | WaitResult.timeout => (d, OpResult.err ("Error deleting HuaweiCloud CCE cluster: timeout"))

/- ===== Concrete fixtures shared by witnesses and counterexamples ===== -/

/-- A maintain window whose default flag is set. -/
def mwWinDefaultTrue : MaintainWindow :=
  { id := 1, begin := "22:00:00", end_ := "02:00:00", default := true }

/-- Maintain-window ResourceData with every filter field left unset. -/
def mwAllUnset : MWData :=
  { id := "", seq := none, begin := none, end_ := none, default := none }

/-- Maintain-window ResourceData with only the default filter supplied
as true. -/
def mwDefaultTrueFilter : MWData :=
  { id := "", seq := none, begin := none, end_ := none, default := some true }

/- ===== Lifecycle fixtures ===== -/

/-- A healthy remote VPC. -/
def vpcFix : Vpc :=
  { id := "vpc-1", name := "net", cidr := "192.168.0.0/16", status := "OK",
    enableSharedSnat := false, routes := [("0.0.0.0/0", "192.168.0.1")] }

/-- The same VPC reported in the explicit failure status DOWN. -/
def vpcDown : Vpc := { vpcFix with status := "DOWN" }

/-- A healthy remote cluster. -/
def clusterFix : Cluster :=
  { metadata := { id := "cce-1", name := "cl" },
    spec := { clusterType := "VirtualMachine", flavor := "cce.s1.small",
              version := "v1.15", description := "d", billingMode := 0,
              vpcId := "vpc-1", subnetId := "sn-1", highwaySubnet := "",
              containerMode := "overlay_l2", containerCidr := "172.16.0.0/16",
              authMode := "x509" },
    status := { phase := "Available" } }

/-- The same cluster reported in the explicit failure status
Unavailable. -/
def clusterUnavailable : Cluster := { clusterFix with status := { phase := "Unavailable" } }

/-- A VPC environment in which every remote call succeeds except the
main get, which reports 404. -/
def envVBase : VpcEnv :=
  { clientV1Err := none, clientV2Err := none, region := "cn-north-1",
    createResult := Except.ok vpcFix,
    activeTrace := [Except.ok vpcFix],
    tagCreateResult := Except.ok (),
    getResult := Except.error SdkErr.default404,
    tagsGetResult := Except.ok [("k", "v")],
    updateResult := fun _ => Except.ok vpcFix,
    tagUpdateResult := Except.ok (),
    deleteTrace := [(Except.error SdkErr.default404, Except.ok ())] }

/-- A CCE environment in which every remote call succeeds except the
main get, which reports 404. -/
def envCBase : CCEEnv :=
  { clientErr := none, region := "cn-north-1",
    createResult := Except.ok clusterFix,
    activeTrace := [Except.ok clusterFix],
    getResult := Except.error SdkErr.default404,
    certResult := Except.ok { clusters := [{ name := "c", server := "s", certAuthorityData := "ca" }], users := [] },
    updateResult := fun _ => Except.ok clusterFix,
    deleteResult := Except.ok (),
    deleteTrace := [Except.error SdkErr.default404] }

/-- Local VPC record with a nonempty identity. -/
def dV0 : VpcData :=
  { id := "vpc-1", name := "net", cidr := "192.168.0.0/16", status := "",
    shared := false, routes := [], region := "", tags := [] }

/-- Local cluster record with a nonempty identity. -/
def dC0 : CCEData :=
  { id := "cce-1", name := "cl", status := "", flavorId := "", clusterVersion := "",
    clusterType := "", description := "", billingMode := 0, vpcId := "",
    subnetId := "", highwaySubnetId := "", containerNetworkType := "",
    containerNetworkCidr := "", authenticationMode := "", region := "",
    certificateClusters := [], certificateUsers := [] }

/-- A cluster the remote reports in the explicit terminal phase
Deleted. -/
def clusterDeletedPhase : Cluster := { clusterFix with status := { phase := "Deleted" } }

/-- A poll step of the VPC delete refresh that keeps the waiter polling
quietly: the get succeeded and the in-loop removal call either succeeded
or failed with HTTP status 409. -/
def vpcDeleteQuiet (p : Except SdkErr Vpc × Except SdkErr Unit) : Bool :=
  match p with
  | (Except.ok _, Except.ok _) => true
  | (Except.ok _, Except.error (SdkErr.unexpectedCode n)) => n == 409
  | _ => false

/-- A poll step of the VPC delete refresh that observes the 404 ending
the loop: from the get, or from the in-loop removal call issued after a
successful get. -/
def vpcDelete404 (p : Except SdkErr Vpc × Except SdkErr Unit) : Bool :=
  match p with
  | (Except.error SdkErr.default404, _) => true
  | (Except.ok _, Except.error SdkErr.default404) => true
  | _ => false

/- ===== Claims ===== -/

/-- A refresh step carrying an error makes the waiter fail with it. -/
theorem waitForState_cons_err {α : Type} (pending target : List String)
    (v : Option α) (s m : String) (rest : List (RefreshOut α)) :
    waitForState pending target
      ({ value := v, status := s, refreshErr := some m } :: rest) =
    WaitResult.errS m := by
  simp [waitForState]

/-- A refresh step reporting a target status makes the waiter succeed. -/
theorem waitForState_cons_target {α : Type} (pending target : List String)
    (v : Option α) (s : String) (rest : List (RefreshOut α))
    (h : s ∈ target) :
    waitForState pending target
      ({ value := v, status := s, refreshErr := none } :: rest) =
    WaitResult.ok v := by
  simp [waitForState, h]

/-- A refresh step reporting a pending status makes the waiter poll on. -/
theorem waitForState_cons_pending {α : Type} (pending target : List String)
    (v : Option α) (s : String) (rest : List (RefreshOut α))
    (h1 : s ∉ target) (h2 : s ∈ pending) :
    waitForState pending target
      ({ value := v, status := s, refreshErr := none } :: rest) =
    waitForState pending target rest := by
  simp [waitForState, h1, h2]

/-- Claim C1: in the maintain-window data-source Read (with the client
and the list fetch succeeding), an empty filter outcome yields the
explicit no-results error and leaves the local record, identity
included, untouched; a nonempty filter outcome yields nil error and
writes the first matching window into the record: the identity from the
window sequence number via strconv.Itoa, and begin, end and default from
the window fields. -/
theorem C1_maintain_window_lookup (d : MWData) (v : List MaintainWindow) :
    (filterMaintainWindows d v = [] →
      dataSourceDmsMaintainWindowV1Read none (Except.ok v) d =
        (d, OpResult.err "Your query returned no results. Please change your filters and try again."))
    ∧ (∀ mw rest, filterMaintainWindows d v = mw :: rest →
      dataSourceDmsMaintainWindowV1Read none (Except.ok v) d =
        ({ d with id := toString mw.id, begin := some mw.begin,
                  end_ := some mw.end_, default := some mw.default }, OpResult.ok)) := by
  constructor
  · intro h
    simp [dataSourceDmsMaintainWindowV1Read, h]
  · intro mw rest h
    simp [dataSourceDmsMaintainWindowV1Read, h]

theorem C1_maintain_window_lookup_witness :
    dataSourceDmsMaintainWindowV1Read none (Except.ok ([] : List MaintainWindow)) mwAllUnset =
      (mwAllUnset, OpResult.err "Your query returned no results. Please change your filters and try again.")
    ∧ dataSourceDmsMaintainWindowV1Read none (Except.ok [mwWinDefaultTrue]) mwDefaultTrueFilter =
      ({ mwDefaultTrueFilter with
          id := toString mwWinDefaultTrue.id,
          begin := some mwWinDefaultTrue.begin,
          end_ := some mwWinDefaultTrue.end_,
          default := some mwWinDefaultTrue.default }, OpResult.ok) :=
  ⟨(C1_maintain_window_lookup mwAllUnset []).1 (by decide),
   (C1_maintain_window_lookup mwDefaultTrueFilter [mwWinDefaultTrue]).2
     mwWinDefaultTrue [] (by decide)⟩

/-- Claim C2 counterexample: with every filter field left unset, the
lookup over a single window whose default flag is true returns the
no-results error - the unset default filter (read back as false)
excluded the window, refuting that a filter field left unset never
excludes any window. -/
theorem C2_unset_default_excludes_counterexample :
    dataSourceDmsMaintainWindowV1Read none (Except.ok [mwWinDefaultTrue]) mwAllUnset =
      (mwAllUnset,
       OpResult.err "Your query returned no results. Please change your filters and try again.") := by
  decide

/-- Claim C2 (amended): the filter loop keeps exactly the windows
satisfying mwKeep, and mwKeep holds iff: the seq filter is zero (in
particular unset) or equal to the window id, the begin filter is empty
or equal, the end filter is empty or equal, and the window default flag
equals the default filter value, which is false when unset - so seq,
begin and end left unset never exclude a window, while the default
filter is applied unconditionally. -/
theorem C2_filter_optionality_amended (d : MWData) (mv : MaintainWindow)
    (l : List MaintainWindow) :
    filterMaintainWindows d l = l.filter (mwKeep d)
    ∧ (mwKeep d mv = true ↔
        ((d.seq.getD 0 = 0 ∨ mv.id = d.seq.getD 0)
         ∧ (d.begin.getD "" = "" ∨ mv.begin = d.begin.getD "")
         ∧ (d.end_.getD "" = "" ∨ mv.end_ = d.end_.getD "")
         ∧ mv.default = d.default.getD false)) := by
  constructor
  · induction l with
    | nil => simp [filterMaintainWindows]
    | cons x xs ih =>
      rw [List.filter_cons]
      by_cases h1 : (d.seq.getD 0 != 0 && x.id != d.seq.getD 0) = true
      · simp [filterMaintainWindows, mwKeep, h1, ih]
      · by_cases h2 : (d.begin.getD "" != "" && x.begin != d.begin.getD "") = true
        · simp [filterMaintainWindows, mwKeep, h1, h2, ih]
        · by_cases h3 : (d.end_.getD "" != "" && x.end_ != d.end_.getD "") = true
          · simp [filterMaintainWindows, mwKeep, h1, h2, h3, ih]
          · by_cases h4 : (x.default != d.default.getD false) = true
            · simp [filterMaintainWindows, mwKeep, h1, h2, h3, h4, ih]
            · simp [filterMaintainWindows, mwKeep, h1, h2, h3, h4, ih]
  · simp only [mwKeep, Bool.and_eq_true, Bool.not_eq_true', Bool.and_eq_false_iff,
      bne_eq_false_iff_eq, bne, Bool.not_eq_false', beq_iff_eq]
    constructor
    · rintro ⟨⟨⟨a, b⟩, c⟩, e⟩
      exact ⟨by tauto, by tauto, by tauto, by tauto⟩
    · rintro ⟨a, b, c, e⟩
      refine ⟨⟨⟨?_, ?_⟩, ?_⟩, ?_⟩ <;> tauto

/-- Claim C4: when the in-loop removal call of the VPC delete refresh
fails with HTTP status 409 (after a successful get), the refresh
reports the pending status ACTIVE with nil error, and the delete waiter
(pending ACTIVE, target DELETED) on such a step simply moves on to the
next poll instead of failing. -/
theorem C4_delete_409_pending_retry (r : Vpc)
    (rest : List (Except SdkErr Vpc × Except SdkErr Unit)) :
    waitForVpcDelete (Except.ok r) (Except.error (SdkErr.unexpectedCode 409)) =
      { value := some r, status := "ACTIVE", refreshErr := none }
    ∧ waitForState ["ACTIVE"] ["DELETED"]
        (((Except.ok r, Except.error (SdkErr.unexpectedCode 409)) ::
          rest).map (fun p => waitForVpcDelete p.1 p.2)) =
      waitForState ["ACTIVE"] ["DELETED"]
        (rest.map (fun p => waitForVpcDelete p.1 p.2)) := by
  constructor
  · simp [waitForVpcDelete]
  · simp [waitForState, waitForVpcDelete, List.contains]

/-- Claim C10: the CCE cluster delete refresh is total: for every
outcome of the underlying get it produces a triple with nil error, a
status among Deleted / Deleting / Available, and the (possibly
zero-valued) extracted cluster as value; in particular a non-404 get
error (here the generic error case) yields the Available triple built
from the zero-valued cluster rather than a crash. -/
theorem C10_delete_refresh_total (get : Except SdkErr Cluster) :
    (waitForCCEClusterDelete get).refreshErr = none
    ∧ ((waitForCCEClusterDelete get).status = "Deleted"
       ∨ (waitForCCEClusterDelete get).status = "Deleting"
       ∨ (waitForCCEClusterDelete get).status = "Available")
    ∧ (waitForCCEClusterDelete get).value = some (extractCluster get)
    ∧ (∀ m, waitForCCEClusterDelete (Except.error (SdkErr.other m)) =
        { value := some zeroCluster, status := "Available", refreshErr := none })
    ∧ (∀ n, waitForCCEClusterDelete (Except.error (SdkErr.unexpectedCode n)) =
        { value := some zeroCluster, status := "Available", refreshErr := none }) := by
  refine ⟨?_, ?_, ?_, ?_, ?_⟩
  · rcases get with e | c
    · cases e <;> simp [waitForCCEClusterDelete, extractCluster, zeroCluster]
    · by_cases h : c.status.phase == "Deleting" <;>
        simp [waitForCCEClusterDelete, extractCluster, h]
  · rcases get with e | c
    · cases e <;> simp [waitForCCEClusterDelete, extractCluster, zeroCluster]
    · by_cases h : c.status.phase == "Deleting" <;>
        simp [waitForCCEClusterDelete, extractCluster, h]
  · rcases get with e | c
    · cases e <;> simp [waitForCCEClusterDelete, extractCluster, zeroCluster]
    · by_cases h : c.status.phase == "Deleting" <;>
        simp [waitForCCEClusterDelete, extractCluster, h]
  · intro m
    simp [waitForCCEClusterDelete, extractCluster, zeroCluster]
  · intro n
    simp [waitForCCEClusterDelete, extractCluster, zeroCluster]


/-- Claim C3: for both resource Reads (with the client construction
succeeding), a 404 from the remote get clears the local identity and
returns nil error, and any other get error is returned wrapped with the
static retrieval prefix, the local record untouched. -/
theorem C3_read_404_clears_identity (envV : VpcEnv) (dV : VpcData)
    (envC : CCEEnv) (dC : CCEData) :
    (envV.clientV1Err = none →
      (envV.getResult = Except.error SdkErr.default404 →
        resourceVirtualPrivateCloudV1Read envV dV = ({ dV with id := "" }, OpResult.ok))
      ∧ (∀ e, envV.getResult = Except.error e → e ≠ SdkErr.default404 →
        resourceVirtualPrivateCloudV1Read envV dV =
          (dV, OpResult.err ("Error retrieving Huaweicloud Vpc: " ++ sdkErrMsg e))))
    ∧ (envC.clientErr = none →
      (envC.getResult = Except.error SdkErr.default404 →
        resourceCCEClusterV3Read envC dC = ({ dC with id := "" }, OpResult.ok))
      ∧ (∀ e, envC.getResult = Except.error e → e ≠ SdkErr.default404 →
        resourceCCEClusterV3Read envC dC =
          (dC, OpResult.err ("Error retrieving HuaweiCloud CCE: " ++ sdkErrMsg e)))) := by
  constructor
  · intro hcl
    constructor
    · intro hget
      simp [resourceVirtualPrivateCloudV1Read, hcl, hget]
    · intro e hget hne
      cases e with
      | default404 => exact absurd rfl hne
      | unexpectedCode n => simp [resourceVirtualPrivateCloudV1Read, hcl, hget]
      | other m => simp [resourceVirtualPrivateCloudV1Read, hcl, hget]
  · intro hcl
    constructor
    · intro hget
      simp [resourceCCEClusterV3Read, hcl, hget]
    · intro e hget hne
      cases e with
      | default404 => exact absurd rfl hne
      | unexpectedCode n => simp [resourceCCEClusterV3Read, hcl, hget]
      | other m => simp [resourceCCEClusterV3Read, hcl, hget]

theorem C3_read_404_clears_identity_witness :
    resourceVirtualPrivateCloudV1Read envVBase dV0 = ({ dV0 with id := "" }, OpResult.ok)
    ∧ resourceVirtualPrivateCloudV1Read
        { envVBase with getResult := Except.error (SdkErr.other "boom") } dV0 =
      (dV0, OpResult.err ("Error retrieving Huaweicloud Vpc: " ++ sdkErrMsg (SdkErr.other "boom")))
    ∧ resourceCCEClusterV3Read envCBase dC0 = ({ dC0 with id := "" }, OpResult.ok)
    ∧ resourceCCEClusterV3Read
        { envCBase with getResult := Except.error (SdkErr.other "boom") } dC0 =
      (dC0, OpResult.err ("Error retrieving HuaweiCloud CCE: " ++ sdkErrMsg (SdkErr.other "boom"))) :=
  ⟨((C3_read_404_clears_identity envVBase dV0 envCBase dC0).1 rfl).1 rfl,
   ((C3_read_404_clears_identity
      { envVBase with getResult := Except.error (SdkErr.other "boom") } dV0 envCBase dC0).1 rfl).2
     (SdkErr.other "boom") rfl (by decide),
   ((C3_read_404_clears_identity envVBase dV0 envCBase dC0).2 rfl).1 rfl,
   ((C3_read_404_clears_identity envVBase dV0
      { envCBase with getResult := Except.error (SdkErr.other "boom") } dC0).2 rfl).2
     (SdkErr.other "boom") rfl (by decide)⟩

/-- Claim C5: after a successful create call, an observation of the
explicit failure status during the create polling is fatal: a VPC
reported DOWN makes the VPC refresh return an error, so Create returns
the wrapped waiter error; a cluster reported Unavailable is neither
pending (Creating) nor target (Available), so the waiter fails with an
unexpected-state error and Create returns it wrapped. -/
theorem C5_failure_status_fatal (envV : VpcEnv) (dV : VpcData) (n v : Vpc)
    (restV : List (Except SdkErr Vpc))
    (envC : CCEEnv) (dC : CCEData) (cr c : Cluster)
    (restC : List (Except SdkErr Cluster)) :
    (envV.clientV1Err = none → envV.createResult = Except.ok n →
      v.status = "DOWN" → envV.activeTrace = Except.ok v :: restV →
      resourceVirtualPrivateCloudV1Create envV dV =
        ({ dV with id := n.id },
         OpResult.err ("Error waiting for Vpc (" ++ n.id ++ ") to become ACTIVE: " ++
           ("Vpc status: " ++ v.status))))
    ∧ (envC.clientErr = none → envC.createResult = Except.ok cr →
      c.status.phase = "Unavailable" → envC.activeTrace = Except.ok c :: restC →
      resourceCCEClusterV3Create envC dC =
        (dC, OpResult.err ("Error creating HuaweiCloud CCE cluster: " ++
          ("unexpected state " ++ c.status.phase)))) := by
  constructor
  · intro hcl hcr hst htr
    simp [resourceVirtualPrivateCloudV1Create, hcl, hcr, htr,
      waitForVpcActive, hst, waitForState]
  · intro hcl hcr hst htr
    simp [resourceCCEClusterV3Create, hcl, hcr, htr,
      waitForCCEClusterActive, hst, waitForState, List.contains]

theorem C5_failure_status_fatal_witness :
    resourceVirtualPrivateCloudV1Create
        { envVBase with activeTrace := [Except.ok vpcDown] } dV0 =
      ({ dV0 with id := vpcFix.id },
       OpResult.err ("Error waiting for Vpc (" ++ vpcFix.id ++ ") to become ACTIVE: " ++
         ("Vpc status: " ++ vpcDown.status)))
    ∧ resourceCCEClusterV3Create
        { envCBase with activeTrace := [Except.ok clusterUnavailable] } dC0 =
      (dC0, OpResult.err ("Error creating HuaweiCloud CCE cluster: " ++
        ("unexpected state " ++ clusterUnavailable.status.phase))) :=
  ⟨(C5_failure_status_fatal { envVBase with activeTrace := [Except.ok vpcDown] } dV0
      vpcFix vpcDown [] envCBase dC0 clusterFix clusterUnavailable []).1
      rfl rfl (by decide) rfl,
   (C5_failure_status_fatal envVBase dV0 vpcFix vpcDown []
      { envCBase with activeTrace := [Except.ok clusterUnavailable] } dC0
      clusterFix clusterUnavailable []).2
      rfl rfl (by decide) rfl⟩

/-- Claim C6: an update payload carries a field exactly when HasChange
reported it changed, no immutable-after-creation (ForceNew) schema field
is ever part of an update payload, and a successful Update (update call
ok, and for the VPC also the tag update path ok when tags changed) ends
by returning the result of the resource Read. -/
theorem C6_update_sends_only_changed (chV : VpcChanges) (dV : VpcData)
    (chC : CCEChanges) (dC : CCEData) (envV : VpcEnv) (envC : CCEEnv) :
    (∀ f ∈ (vpcUpdateOpts chV dV).sentFields,
      vpcHasChange chV f = true ∧ f ∉ forceNewFields vpcSchema)
    ∧ (∀ f ∈ (cceUpdateOpts chC dC).sentFields,
      cceHasChange chC f = true ∧ f ∉ forceNewFields cceSchema)
    ∧ (envV.clientV1Err = none →
      (∃ u, envV.updateResult (vpcUpdateOpts chV dV) = Except.ok u) →
      (chV.tags = true → envV.clientV2Err = none ∧ envV.tagUpdateResult = Except.ok ()) →
      resourceVirtualPrivateCloudV1Update envV chV dV = resourceVirtualPrivateCloudV1Read envV dV)
    ∧ (envC.clientErr = none →
      (∃ u, envC.updateResult (cceUpdateOpts chC dC) = Except.ok u) →
      resourceCCEClusterV3Update envC chC dC = resourceCCEClusterV3Read envC dC) := by
  refine ⟨?_, ?_, ?_, ?_⟩
  · intro f hf
    have h : ((vpcUpdateOpts chV dV).sentFields.all
        (fun g => vpcHasChange chV g && !(decide (g ∈ forceNewFields vpcSchema)))) = true := by
      rcases chV with ⟨nb, cb, tb⟩
      cases nb <;> cases cb <;> cases tb <;>
        simp [vpcUpdateOpts, VpcUpdateOpts.sentFields, vpcHasChange,
          forceNewFields, vpcSchema]
    rw [List.all_eq_true] at h
    have h2 := h f hf
    rw [Bool.and_eq_true, Bool.not_eq_true', decide_eq_false_iff_not] at h2
    exact h2
  · intro f hf
    have h : ((cceUpdateOpts chC dC).sentFields.all
        (fun g => cceHasChange chC g && !(decide (g ∈ forceNewFields cceSchema)))) = true := by
      rcases chC with ⟨db⟩
      cases db <;>
        simp [cceUpdateOpts, CCEUpdateOpts.sentFields, cceHasChange,
          forceNewFields, cceSchema]
    rw [List.all_eq_true] at h
    have h2 := h f hf
    rw [Bool.and_eq_true, Bool.not_eq_true', decide_eq_false_iff_not] at h2
    exact h2
  · rintro hcl ⟨u, hu⟩ htags
    cases ht : chV.tags with
    | false => simp [resourceVirtualPrivateCloudV1Update, hcl, hu, ht]
    | true =>
      obtain ⟨h2, h3⟩ := htags ht
      simp [resourceVirtualPrivateCloudV1Update, hcl, hu, ht, h2, h3]
  · rintro hcl ⟨u, hu⟩
    simp [resourceCCEClusterV3Update, hcl, hu]

theorem C6_update_sends_only_changed_witness :
    (vpcHasChange { name := true, cidr := false, tags := false } "name" = true
      ∧ "name" ∉ forceNewFields vpcSchema)
    ∧ (cceHasChange { description := true } "description" = true
      ∧ "description" ∉ forceNewFields cceSchema)
    ∧ resourceVirtualPrivateCloudV1Update envVBase
        { name := true, cidr := false, tags := false } dV0 =
      resourceVirtualPrivateCloudV1Read envVBase dV0
    ∧ resourceCCEClusterV3Update envCBase { description := true } dC0 =
      resourceCCEClusterV3Read envCBase dC0 :=
  ⟨(C6_update_sends_only_changed { name := true, cidr := false, tags := false } dV0
      { description := true } dC0 envVBase envCBase).1 "name" (by decide),
   (C6_update_sends_only_changed { name := true, cidr := false, tags := false } dV0
      { description := true } dC0 envVBase envCBase).2.1 "description" (by decide),
   (C6_update_sends_only_changed { name := true, cidr := false, tags := false } dV0
      { description := true } dC0 envVBase envCBase).2.2.1 rfl ⟨vpcFix, rfl⟩
      (fun h => absurd h (by decide)),
   (C6_update_sends_only_changed { name := true, cidr := false, tags := false } dV0
      { description := true } dC0 envVBase envCBase).2.2.2 rfl ⟨clusterFix, rfl⟩⟩

/-- Claim C8 counterexample: with the cluster get succeeding and the
certificate fetch failing with a non-404 error, the CCE Read returns nil
error - the upstream certificate error is only logged and then
suppressed, refuting that every non-404 failure met while Read
reconciles computed fields is returned as an error. -/
theorem C8_cert_error_suppressed_counterexample :
    (resourceCCEClusterV3Read
      { envCBase with getResult := Except.ok clusterFix,
                      certResult := Except.error (SdkErr.other "boom") } dC0).2 =
      OpResult.ok := by
  decide

/-- Claim C8 (amended): every upstream error of the lifecycle operations
is either returned to the caller wrapped with a static prefix, or is one
of these explicitly handled cases: during Read, a 404 from the main get
clears the identity and returns nil, a 404 fetching the VPC tags is only
logged, and any error of the CCE certificate fetch is only logged and
suppressed, the read completing with nil error and empty certificate
lists; during Delete polling, a 404 (from the get, or for the VPC from
the in-loop removal call) terminates the loop as success, a 409 from the
VPC in-loop removal call is swallowed into a pending retry, and a
non-404 error of the CCE delete-poll get is swallowed by the refresh
(pending status Available, nil error), surfacing at most as a later
timeout. The wrapped-return sites, enumerated: client construction in
every handler; the create calls; create-poll get errors, which the
active refreshes pass through and Create wraps from the waiter; the VPC
tag-create, tag-update, main-update and CCE update calls; the CCE
up-front removal call; Read main-get and VPC-tag non-404 errors; and VPC
delete-poll get or removal errors other than 404/409, which the refresh
passes through and Delete wraps from the waiter. -/
theorem C8_error_suppression_amended (envV : VpcEnv) (dV : VpcData)
    (chV : VpcChanges) (envC : CCEEnv) (dC : CCEData) (chC : CCEChanges) :
    (∀ e, envV.clientV1Err = some e →
      (resourceVirtualPrivateCloudV1Read envV dV).2 =
        OpResult.err ("Error creating Huaweicloud Vpc client: " ++ e)
      ∧ (resourceVirtualPrivateCloudV1Create envV dV).2 =
        OpResult.err ("Error creating Huaweicloud vpc client: " ++ e)
      ∧ (resourceVirtualPrivateCloudV1Update envV chV dV).2 =
        OpResult.err ("Error creating Huaweicloud Vpc: " ++ e)
      ∧ (resourceVirtualPrivateCloudV1Delete envV dV).2 =
        OpResult.err ("Error creating Huaweicloud vpc: " ++ e))
    ∧ (∀ e, envC.clientErr = some e →
      (resourceCCEClusterV3Read envC dC).2 =
        OpResult.err ("Error creating HuaweiCloud CCE client: " ++ e)
      ∧ (resourceCCEClusterV3Create envC dC).2 =
        OpResult.err ("Unable to create HuaweiCloud CCE client : " ++ e)
      ∧ (resourceCCEClusterV3Update envC chC dC).2 =
        OpResult.err ("Error creating HuaweiCloud CCE Client: " ++ e)
      ∧ (resourceCCEClusterV3Delete envC dC).2 =
        OpResult.err ("Error creating HuaweiCloud CCE Client: " ++ e))
    ∧ (∀ e, envV.clientV1Err = none → envV.createResult = Except.error e →
      (resourceVirtualPrivateCloudV1Create envV dV).2 =
        OpResult.err ("Error creating Huaweicloud VPC: " ++ sdkErrMsg e))
    ∧ (∀ e, envC.clientErr = none → envC.createResult = Except.error e →
      (resourceCCEClusterV3Create envC dC).2 =
        OpResult.err ("Error creating HuaweiCloud Cluster: " ++ sdkErrMsg e))
    ∧ (∀ e, waitForVpcActive (Except.error e) =
      { value := none, status := "", refreshErr := some (sdkErrMsg e) })
    ∧ (∀ e, waitForCCEClusterActive (Except.error e) =
      { value := none, status := "", refreshErr := some (sdkErrMsg e) })
    ∧ (∀ n m, envV.clientV1Err = none → envV.createResult = Except.ok n →
      waitForState ["CREATING"] ["ACTIVE"] (envV.activeTrace.map waitForVpcActive) =
        WaitResult.errS m →
      (resourceVirtualPrivateCloudV1Create envV dV).2 =
        OpResult.err ("Error waiting for Vpc (" ++ n.id ++ ") to become ACTIVE: " ++ m))
    ∧ (∀ n m, envC.clientErr = none → envC.createResult = Except.ok n →
      waitForState ["Creating"] ["Available"] (envC.activeTrace.map waitForCCEClusterActive) =
        WaitResult.errS m →
      (resourceCCEClusterV3Create envC dC).2 =
        OpResult.err ("Error creating HuaweiCloud CCE cluster: " ++ m))
    ∧ (∀ n w e, envV.clientV1Err = none → envV.createResult = Except.ok n →
      waitForState ["CREATING"] ["ACTIVE"] (envV.activeTrace.map waitForVpcActive) =
        WaitResult.ok w →
      dV.tags.length > 0 → envV.clientV2Err = none →
      envV.tagCreateResult = Except.error e →
      (resourceVirtualPrivateCloudV1Create envV dV).2 =
        OpResult.err ("Error setting tags of VirtualPrivateCloud " ++ n.id ++ ": " ++ sdkErrMsg e))
    ∧ (∀ e, envV.clientV1Err = none → envV.getResult = Except.error e →
      (resourceVirtualPrivateCloudV1Read envV dV).2 =
        (if e = SdkErr.default404 then OpResult.ok
         else OpResult.err ("Error retrieving Huaweicloud Vpc: " ++ sdkErrMsg e)))
    ∧ (∀ e, envC.clientErr = none → envC.getResult = Except.error e →
      (resourceCCEClusterV3Read envC dC).2 =
        (if e = SdkErr.default404 then OpResult.ok
         else OpResult.err ("Error retrieving HuaweiCloud CCE: " ++ sdkErrMsg e)))
    ∧ (∀ n e, envV.clientV1Err = none → envV.clientV2Err = none →
      envV.getResult = Except.ok n → envV.tagsGetResult = Except.error e →
      (resourceVirtualPrivateCloudV1Read envV dV).2 =
        (if e = SdkErr.default404 then OpResult.ok
         else OpResult.err ("Error fetching HuaweiCloud VPC " ++ dV.id ++ " tags: " ++ sdkErrMsg e)))
    ∧ (∀ n e, envC.clientErr = none → envC.getResult = Except.ok n →
      envC.certResult = Except.error e →
      (resourceCCEClusterV3Read envC dC).2 = OpResult.ok
      ∧ (resourceCCEClusterV3Read envC dC).1.certificateClusters = []
      ∧ (resourceCCEClusterV3Read envC dC).1.certificateUsers = [])
    ∧ (∀ e, envV.clientV1Err = none →
      envV.updateResult (vpcUpdateOpts chV dV) = Except.error e →
      (resourceVirtualPrivateCloudV1Update envV chV dV).2 =
        OpResult.err ("Error updating Huaweicloud Vpc: " ++ sdkErrMsg e))
    ∧ (∀ u e, envV.clientV1Err = none →
      envV.updateResult (vpcUpdateOpts chV dV) = Except.ok u →
      chV.tags = true → envV.clientV2Err = none →
      envV.tagUpdateResult = Except.error e →
      (resourceVirtualPrivateCloudV1Update envV chV dV).2 =
        OpResult.err ("Error updating tags of VPC " ++ dV.id ++ ": " ++ sdkErrMsg e))
    ∧ (∀ e, envC.clientErr = none →
      envC.updateResult (cceUpdateOpts chC dC) = Except.error e →
      (resourceCCEClusterV3Update envC chC dC).2 =
        OpResult.err ("Error updating HuaweiCloud CCE: " ++ sdkErrMsg e))
    ∧ (∀ e, envC.clientErr = none → envC.deleteResult = Except.error e →
      (resourceCCEClusterV3Delete envC dC).2 =
        OpResult.err ("Error deleting HuaweiCloud CCE Cluster: " ++ sdkErrMsg e))
    ∧ (∀ e dl, e ≠ SdkErr.default404 →
      waitForVpcDelete (Except.error e) dl =
        { value := some zeroVpc, status := "ACTIVE", refreshErr := some (sdkErrMsg e) })
    ∧ (∀ r e, e ≠ SdkErr.default404 → e ≠ SdkErr.unexpectedCode 409 →
      waitForVpcDelete (Except.ok r) (Except.error e) =
        { value := some r, status := "ACTIVE", refreshErr := some (sdkErrMsg e) })
    ∧ (∀ m, envV.clientV1Err = none →
      waitForState ["ACTIVE"] ["DELETED"]
        (envV.deleteTrace.map (fun p => waitForVpcDelete p.1 p.2)) = WaitResult.errS m →
      (resourceVirtualPrivateCloudV1Delete envV dV).2 =
        OpResult.err ("Error deleting Huaweicloud Vpc: " ++ m))
    ∧ (∀ r, waitForVpcDelete (Except.ok r) (Except.error (SdkErr.unexpectedCode 409)) =
      { value := some r, status := "ACTIVE", refreshErr := none })
    ∧ ((∀ dl, waitForVpcDelete (Except.error SdkErr.default404) dl =
        { value := some zeroVpc, status := "DELETED", refreshErr := none })
      ∧ (∀ r, waitForVpcDelete (Except.ok r) (Except.error SdkErr.default404) =
        { value := some r, status := "DELETED", refreshErr := none })
      ∧ waitForCCEClusterDelete (Except.error SdkErr.default404) =
        { value := some zeroCluster, status := "Deleted", refreshErr := none })
    ∧ (∀ e, e ≠ SdkErr.default404 →
      waitForCCEClusterDelete (Except.error e) =
        { value := some zeroCluster, status := "Available", refreshErr := none }) := by
  refine ⟨?_, ?_, ?_, ?_, ?_, ?_, ?_, ?_, ?_, ?_, ?_, ?_, ?_, ?_, ?_, ?_, ?_,
    ?_, ?_, ?_, ?_, ?_, ?_⟩
  · intro e h
    refine ⟨?_, ?_, ?_, ?_⟩ <;>
      simp [resourceVirtualPrivateCloudV1Read, resourceVirtualPrivateCloudV1Create,
        resourceVirtualPrivateCloudV1Update, resourceVirtualPrivateCloudV1Delete, h]
  · intro e h
    refine ⟨?_, ?_, ?_, ?_⟩ <;>
      simp [resourceCCEClusterV3Read, resourceCCEClusterV3Create,
        resourceCCEClusterV3Update, resourceCCEClusterV3Delete, h]
  · intro e h1 h2
    simp [resourceVirtualPrivateCloudV1Create, h1, h2]
  · intro e h1 h2
    simp [resourceCCEClusterV3Create, h1, h2]
  · intro e
    simp [waitForVpcActive]
  · intro e
    simp [waitForCCEClusterActive]
  · intro n m h1 h2 h3
    simp [resourceVirtualPrivateCloudV1Create, h1, h2, h3]
  · intro n m h1 h2 h3
    simp [resourceCCEClusterV3Create, h1, h2, h3]
  · intro n w e h1 h2 h3 h4 h5 h6
    simp [resourceVirtualPrivateCloudV1Create, h1, h2, h3, h4, h5, h6]
  · intro e h1 h2
    cases e <;> simp [resourceVirtualPrivateCloudV1Read, h1, h2]
  · intro e h1 h2
    cases e <;> simp [resourceCCEClusterV3Read, h1, h2]
  · intro n e h1 h2 h3 h4
    cases e <;> simp [resourceVirtualPrivateCloudV1Read, h1, h2, h3, h4]
  · intro n e h1 h2 h3
    refine ⟨?_, ?_, ?_⟩ <;>
      simp [resourceCCEClusterV3Read, h1, h2, h3, extractCert, zeroCertificate]
  · intro e h1 h2
    simp [resourceVirtualPrivateCloudV1Update, h1, h2]
  · intro u e h1 h2 h3 h4 h5
    simp [resourceVirtualPrivateCloudV1Update, h1, h2, h3, h4, h5]
  · intro e h1 h2
    simp [resourceCCEClusterV3Update, h1, h2]
  · intro e h1 h2
    simp [resourceCCEClusterV3Delete, h1, h2]
  · intro e dl h
    cases e with
    | default404 => exact absurd rfl h
    | unexpectedCode k => simp [waitForVpcDelete, extractVpc]
    | other m => simp [waitForVpcDelete, extractVpc]
  · intro r e h1 h2
    cases e with
    | default404 => exact absurd rfl h1
    | unexpectedCode k =>
      have hk : ¬ k = 409 := fun hh => h2 (by rw [hh])
      simp [waitForVpcDelete, hk]
    | other m => simp [waitForVpcDelete]
  · intro m h1 h2
    simp [resourceVirtualPrivateCloudV1Delete, h1, h2]
  · intro r
    simp [waitForVpcDelete]
  · refine ⟨?_, ?_, ?_⟩
    · intro dl
      simp [waitForVpcDelete, extractVpc]
    · intro r
      simp [waitForVpcDelete]
    · simp [waitForCCEClusterDelete, extractCluster]
  · intro e h
    cases e with
    | default404 => exact absurd rfl h
    | unexpectedCode k =>
      simp [waitForCCEClusterDelete, extractCluster, zeroCluster]
    | other m =>
      simp [waitForCCEClusterDelete, extractCluster, zeroCluster]

theorem C8_error_suppression_amended_witness :
    (resourceVirtualPrivateCloudV1Read
      { envVBase with clientV1Err := some "denied" } dV0).2 =
      OpResult.err ("Error creating Huaweicloud Vpc client: " ++ "denied")
    ∧ (resourceVirtualPrivateCloudV1Read
      { envVBase with getResult := Except.error (SdkErr.other "boom") } dV0).2 =
      (if SdkErr.other "boom" = SdkErr.default404 then OpResult.ok
       else OpResult.err ("Error retrieving Huaweicloud Vpc: " ++ sdkErrMsg (SdkErr.other "boom")))
    ∧ (resourceVirtualPrivateCloudV1Read
      { envVBase with getResult := Except.ok vpcFix,
                      tagsGetResult := Except.error (SdkErr.other "boom") } dV0).2 =
      (if SdkErr.other "boom" = SdkErr.default404 then OpResult.ok
       else OpResult.err ("Error fetching HuaweiCloud VPC " ++ dV0.id ++ " tags: " ++
         sdkErrMsg (SdkErr.other "boom")))
    ∧ (resourceCCEClusterV3Read
      { envCBase with getResult := Except.ok clusterFix,
                      certResult := Except.error (SdkErr.other "down") } dC0).2 =
      OpResult.ok
    ∧ (resourceVirtualPrivateCloudV1Delete
      { envVBase with deleteTrace := [(Except.error (SdkErr.other "boom"), Except.ok ())] } dV0).2 =
      OpResult.err ("Error deleting Huaweicloud Vpc: " ++ "boom")
    ∧ waitForCCEClusterDelete (Except.error (SdkErr.other "boom")) =
      { value := some zeroCluster, status := "Available", refreshErr := none } := by
  refine ⟨?_, ?_, ?_, ?_, ?_, ?_⟩
  · exact ((C8_error_suppression_amended
      { envVBase with clientV1Err := some "denied" } dV0
      { name := false, cidr := false, tags := false } envCBase dC0
      { description := false }).1 "denied" rfl).1
  · exact (C8_error_suppression_amended
      { envVBase with getResult := Except.error (SdkErr.other "boom") } dV0
      { name := false, cidr := false, tags := false } envCBase dC0
      { description := false }).2.2.2.2.2.2.2.2.2.1 (SdkErr.other "boom") rfl rfl
  · exact (C8_error_suppression_amended
      { envVBase with getResult := Except.ok vpcFix,
                      tagsGetResult := Except.error (SdkErr.other "boom") } dV0
      { name := false, cidr := false, tags := false } envCBase dC0
      { description := false }).2.2.2.2.2.2.2.2.2.2.2.1
      vpcFix (SdkErr.other "boom") rfl rfl rfl rfl
  · exact ((C8_error_suppression_amended envVBase dV0
      { name := false, cidr := false, tags := false }
      { envCBase with getResult := Except.ok clusterFix,
                      certResult := Except.error (SdkErr.other "down") } dC0
      { description := false }).2.2.2.2.2.2.2.2.2.2.2.2.1
      clusterFix (SdkErr.other "down") rfl rfl rfl).1
  · exact (C8_error_suppression_amended
      { envVBase with deleteTrace := [(Except.error (SdkErr.other "boom"), Except.ok ())] } dV0
      { name := false, cidr := false, tags := false } envCBase dC0
      { description := false }).2.2.2.2.2.2.2.2.2.2.2.2.2.2.2.2.2.2.2.1
      "boom" rfl (by decide)
  · exact (C8_error_suppression_amended envVBase dV0
      { name := false, cidr := false, tags := false } envCBase dC0
      { description := false }).2.2.2.2.2.2.2.2.2.2.2.2.2.2.2.2.2.2.2.2.2.2
      (SdkErr.other "boom") (by decide)

/-- Claim C9: for both resources the local identity is governed by the
lifecycle as follows: a failing create call leaves the identity (and the
whole record) untouched and Create errors; when the create call succeeds
and Create returns nil error (with the final re-read get succeeding),
the identity equals the remote-assigned id of the created object; a
Delete returning nil error leaves the identity empty; a Delete returning
an error leaves the record, identity included, untouched. -/
theorem C9_identity_lifecycle (envV : VpcEnv) (dV : VpcData)
    (envC : CCEEnv) (dC : CCEData) :
    ((∀ e, envV.clientV1Err = none → envV.createResult = Except.error e →
      resourceVirtualPrivateCloudV1Create envV dV =
        (dV, OpResult.err ("Error creating Huaweicloud VPC: " ++ sdkErrMsg e)))
    ∧ (∀ n m, envV.createResult = Except.ok n → envV.getResult = Except.ok m →
      (resourceVirtualPrivateCloudV1Create envV dV).2 = OpResult.ok →
      (resourceVirtualPrivateCloudV1Create envV dV).1.id = n.id)
    ∧ ((resourceVirtualPrivateCloudV1Delete envV dV).2 = OpResult.ok →
      (resourceVirtualPrivateCloudV1Delete envV dV).1.id = "")
    ∧ (∀ m, (resourceVirtualPrivateCloudV1Delete envV dV).2 = OpResult.err m →
      (resourceVirtualPrivateCloudV1Delete envV dV).1 = dV))
    ∧ ((∀ e, envC.clientErr = none → envC.createResult = Except.error e →
      resourceCCEClusterV3Create envC dC =
        (dC, OpResult.err ("Error creating HuaweiCloud Cluster: " ++ sdkErrMsg e)))
    ∧ (∀ n m, envC.createResult = Except.ok n → envC.getResult = Except.ok m →
      (resourceCCEClusterV3Create envC dC).2 = OpResult.ok →
      (resourceCCEClusterV3Create envC dC).1.id = n.metadata.id)
    ∧ ((resourceCCEClusterV3Delete envC dC).2 = OpResult.ok →
      (resourceCCEClusterV3Delete envC dC).1.id = "")
    ∧ (∀ m, (resourceCCEClusterV3Delete envC dC).2 = OpResult.err m →
      (resourceCCEClusterV3Delete envC dC).1 = dC)) := by
  constructor
  · refine ⟨?_, ?_, ?_, ?_⟩
    · intro e h1 h2
      simp [resourceVirtualPrivateCloudV1Create, h1, h2]
    · intro n m hcr hget hok
      cases h1 : envV.clientV1Err with
      | some e => simp [resourceVirtualPrivateCloudV1Create, h1] at hok
      | none =>
        cases h2 : waitForState ["CREATING"] ["ACTIVE"] (envV.activeTrace.map waitForVpcActive) with
        | errS msg => simp [resourceVirtualPrivateCloudV1Create, h1, hcr, h2] at hok
        | timeout => simp [resourceVirtualPrivateCloudV1Create, h1, hcr, h2] at hok
        | ok w =>
          by_cases h3 : dV.tags.length > 0
          · cases h4 : envV.clientV2Err with
            | some e =>
              simp [resourceVirtualPrivateCloudV1Create, h1, hcr, h2, h3, h4] at hok
            | none =>
              cases h5 : envV.tagCreateResult with
              | error e =>
                simp [resourceVirtualPrivateCloudV1Create, h1, hcr, h2, h3, h4, h5] at hok
              | ok u =>
                cases h6 : envV.tagsGetResult with
                | error e =>
                  cases e <;>
                    simp [resourceVirtualPrivateCloudV1Create, h1, hcr, h2, h3, h4, h5,
                      resourceVirtualPrivateCloudV1Read, hget, h6] at hok ⊢
                | ok ts =>
                  simp [resourceVirtualPrivateCloudV1Create, h1, hcr, h2, h3, h4, h5,
                    resourceVirtualPrivateCloudV1Read, hget, h6]
          · cases h4 : envV.clientV2Err with
            | some e =>
              simp [resourceVirtualPrivateCloudV1Create, h1, hcr, h2, h3, h4,
                resourceVirtualPrivateCloudV1Read, hget] at hok
            | none =>
              cases h6 : envV.tagsGetResult with
              | error e =>
                cases e <;>
                  simp [resourceVirtualPrivateCloudV1Create, h1, hcr, h2, h3, h4,
                    resourceVirtualPrivateCloudV1Read, hget, h6] at hok ⊢
              | ok ts =>
                simp [resourceVirtualPrivateCloudV1Create, h1, hcr, h2, h3, h4,
                  resourceVirtualPrivateCloudV1Read, hget, h6]
    · intro hok
      cases h1 : envV.clientV1Err with
      | some e => simp [resourceVirtualPrivateCloudV1Delete, h1] at hok
      | none =>
        cases h2 : waitForState ["ACTIVE"] ["DELETED"]
            (envV.deleteTrace.map (fun p => waitForVpcDelete p.1 p.2)) with
        | errS msg => simp [resourceVirtualPrivateCloudV1Delete, h1, h2] at hok
        | timeout => simp [resourceVirtualPrivateCloudV1Delete, h1, h2] at hok
        | ok w => simp [resourceVirtualPrivateCloudV1Delete, h1, h2]
    · intro m hok
      cases h1 : envV.clientV1Err with
      | some e => simp [resourceVirtualPrivateCloudV1Delete, h1]
      | none =>
        cases h2 : waitForState ["ACTIVE"] ["DELETED"]
            (envV.deleteTrace.map (fun p => waitForVpcDelete p.1 p.2)) with
        | errS msg => simp [resourceVirtualPrivateCloudV1Delete, h1, h2]
        | timeout => simp [resourceVirtualPrivateCloudV1Delete, h1, h2]
        | ok w => simp [resourceVirtualPrivateCloudV1Delete, h1, h2] at hok
  · refine ⟨?_, ?_, ?_, ?_⟩
    · intro e h1 h2
      simp [resourceCCEClusterV3Create, h1, h2]
    · intro n m hcr hget hok
      cases h1 : envC.clientErr with
      | some e => simp [resourceCCEClusterV3Create, h1] at hok
      | none =>
        cases h2 : waitForState ["Creating"] ["Available"]
            (envC.activeTrace.map waitForCCEClusterActive) with
        | errS msg => simp [resourceCCEClusterV3Create, h1, hcr, h2] at hok
        | timeout => simp [resourceCCEClusterV3Create, h1, hcr, h2] at hok
        | ok w =>
          simp [resourceCCEClusterV3Create, h1, hcr, h2,
            resourceCCEClusterV3Read, hget]
    · intro hok
      cases h1 : envC.clientErr with
      | some e => simp [resourceCCEClusterV3Delete, h1] at hok
      | none =>
        cases h2 : envC.deleteResult with
        | error e => simp [resourceCCEClusterV3Delete, h1, h2] at hok
        | ok u =>
          cases h3 : waitForState ["Deleting", "Available", "Unavailable"] ["Deleted"]
              (envC.deleteTrace.map waitForCCEClusterDelete) with
          | errS msg => simp [resourceCCEClusterV3Delete, h1, h2, h3] at hok
          | timeout => simp [resourceCCEClusterV3Delete, h1, h2, h3] at hok
          | ok w => simp [resourceCCEClusterV3Delete, h1, h2, h3]
    · intro m hok
      cases h1 : envC.clientErr with
      | some e => simp [resourceCCEClusterV3Delete, h1]
      | none =>
        cases h2 : envC.deleteResult with
        | error e => simp [resourceCCEClusterV3Delete, h1, h2]
        | ok u =>
          cases h3 : waitForState ["Deleting", "Available", "Unavailable"] ["Deleted"]
              (envC.deleteTrace.map waitForCCEClusterDelete) with
          | errS msg => simp [resourceCCEClusterV3Delete, h1, h2, h3]
          | timeout => simp [resourceCCEClusterV3Delete, h1, h2, h3]
          | ok w => simp [resourceCCEClusterV3Delete, h1, h2, h3] at hok

theorem C9_identity_lifecycle_witness :
    resourceVirtualPrivateCloudV1Create
        { envVBase with createResult := Except.error (SdkErr.other "quota") } dV0 =
      (dV0, OpResult.err ("Error creating Huaweicloud VPC: " ++ sdkErrMsg (SdkErr.other "quota")))
    ∧ (resourceVirtualPrivateCloudV1Create
        { envVBase with getResult := Except.ok vpcFix } dV0).1.id = vpcFix.id
    ∧ (resourceVirtualPrivateCloudV1Delete envVBase dV0).1.id = ""
    ∧ (resourceVirtualPrivateCloudV1Delete
        { envVBase with deleteTrace := [] } dV0).1 = dV0
    ∧ resourceCCEClusterV3Create
        { envCBase with createResult := Except.error (SdkErr.other "quota") } dC0 =
      (dC0, OpResult.err ("Error creating HuaweiCloud Cluster: " ++ sdkErrMsg (SdkErr.other "quota")))
    ∧ (resourceCCEClusterV3Create
        { envCBase with getResult := Except.ok clusterFix } dC0).1.id = clusterFix.metadata.id
    ∧ (resourceCCEClusterV3Delete envCBase dC0).1.id = ""
    ∧ (resourceCCEClusterV3Delete
        { envCBase with deleteTrace := [] } dC0).1 = dC0 :=
  ⟨(C9_identity_lifecycle
      { envVBase with createResult := Except.error (SdkErr.other "quota") } dV0
      envCBase dC0).1.1 (SdkErr.other "quota") rfl rfl,
   (C9_identity_lifecycle
      { envVBase with getResult := Except.ok vpcFix } dV0 envCBase dC0).1.2.1
      vpcFix vpcFix rfl rfl (by decide),
   (C9_identity_lifecycle envVBase dV0 envCBase dC0).1.2.2.1 (by decide),
   (C9_identity_lifecycle
      { envVBase with deleteTrace := [] } dV0 envCBase dC0).1.2.2.2
      "Error deleting Huaweicloud Vpc: timeout" (by decide),
   (C9_identity_lifecycle envVBase dV0
      { envCBase with createResult := Except.error (SdkErr.other "quota") } dC0).2.1
      (SdkErr.other "quota") rfl rfl,
   (C9_identity_lifecycle envVBase dV0
      { envCBase with getResult := Except.ok clusterFix } dC0).2.2.1
      clusterFix clusterFix rfl rfl (by decide),
   (C9_identity_lifecycle envVBase dV0 envCBase dC0).2.2.2.1 (by decide),
   (C9_identity_lifecycle envVBase dV0
      { envCBase with deleteTrace := [] } dC0).2.2.2.2
      "Error deleting HuaweiCloud CCE cluster: timeout" (by decide)⟩

/-- Claim C7 counterexample: a CCE delete whose polls all fetch a
cluster in the explicit terminal phase Deleted does not terminate
successfully - the refresh maps that phase to the pending status
Available, the waiter keeps polling until the budget runs out, and
Delete returns the wrapped timeout error - refuting that the loop
terminates successfully whenever an explicit terminal deleted status is
observed. -/
theorem C7_deleted_phase_not_terminal_counterexample :
    resourceCCEClusterV3Delete
      { envCBase with
          deleteTrace := List.replicate 3 (Except.ok clusterDeletedPhase) } dC0 =
      (dC0, OpResult.err "Error deleting HuaweiCloud CCE cluster: timeout") := by
  decide

/-- Claim C7 (amended): the CCE Delete issues its one removal call
before any polling - a failing removal call is returned wrapped without
entering the loop - while the VPC Delete has no up-front removal call:
each poll step issues the removal after a successful get. The CCE delete
loop terminates successfully exactly when some poll's get returns 404;
the VPC delete loop terminates successfully exactly when, after a prefix
of quiet steps (get ok with removal ok or failing with 409), a step
observes 404 from the get or from the in-loop removal call. An explicit
remote deleted status never terminates a loop by itself. -/
theorem C7_delete_loop_amended (envC : CCEEnv) (dC : CCEData)
    (traceC : List (Except SdkErr Cluster))
    (traceV : List (Except SdkErr Vpc × Except SdkErr Unit)) :
    (∀ e, envC.clientErr = none → envC.deleteResult = Except.error e →
      resourceCCEClusterV3Delete envC dC =
        (dC, OpResult.err ("Error deleting HuaweiCloud CCE Cluster: " ++ sdkErrMsg e)))
    ∧ ((∃ v, waitForState ["Deleting", "Available", "Unavailable"] ["Deleted"]
          (traceC.map waitForCCEClusterDelete) = WaitResult.ok v)
        ↔ Except.error SdkErr.default404 ∈ traceC)
    ∧ ((∃ v, waitForState ["ACTIVE"] ["DELETED"]
          (traceV.map (fun p => waitForVpcDelete p.1 p.2)) = WaitResult.ok v)
        ↔ (∃ p, (traceV.dropWhile vpcDeleteQuiet).head? = some p
                ∧ vpcDelete404 p = true)) := by
  refine ⟨?_, ?_, ?_⟩
  · intro e h1 h2
    simp [resourceCCEClusterV3Delete, h1, h2]
  · induction traceC with
    | nil => simp [waitForState]
    | cons g rest ih =>
      rw [List.map_cons]
      cases g with
      | error e =>
        cases e with
        | default404 =>
          rw [show waitForCCEClusterDelete (Except.error SdkErr.default404) =
              { value := some zeroCluster, status := "Deleted", refreshErr := none }
            from rfl]
          rw [waitForState_cons_target _ _ _ _ _ (by simp)]
          simp
        | unexpectedCode k =>
          rw [show waitForCCEClusterDelete (Except.error (SdkErr.unexpectedCode k)) =
              { value := some zeroCluster, status := "Available", refreshErr := none }
            from rfl]
          rw [waitForState_cons_pending _ _ _ _ _ (by simp) (by simp)]
          rw [ih]
          simp
        | other m =>
          rw [show waitForCCEClusterDelete (Except.error (SdkErr.other m)) =
              { value := some zeroCluster, status := "Available", refreshErr := none }
            from rfl]
          rw [waitForState_cons_pending _ _ _ _ _ (by simp) (by simp)]
          rw [ih]
          simp
      | ok c =>
        by_cases h : c.status.phase = "Deleting"
        · rw [show waitForCCEClusterDelete (Except.ok c) =
              { value := some c, status := "Deleting", refreshErr := none }
            from by simp [waitForCCEClusterDelete, extractCluster, h]]
          rw [waitForState_cons_pending _ _ _ _ _ (by simp) (by simp)]
          rw [ih]
          simp
        · rw [show waitForCCEClusterDelete (Except.ok c) =
              { value := some c, status := "Available", refreshErr := none }
            from by simp [waitForCCEClusterDelete, extractCluster, h]]
          rw [waitForState_cons_pending _ _ _ _ _ (by simp) (by simp)]
          rw [ih]
          simp
  · induction traceV with
    | nil => simp [waitForState, List.dropWhile]
    | cons p rest ih =>
      obtain ⟨g, dl⟩ := p
      rw [List.map_cons, List.dropWhile_cons]
      cases g with
      | error e =>
        cases e with
        | default404 =>
          rw [show waitForVpcDelete (Except.error SdkErr.default404) dl =
              { value := some zeroVpc, status := "DELETED", refreshErr := none }
            from rfl]
          rw [waitForState_cons_target _ _ _ _ _ (by simp)]
          simp [vpcDeleteQuiet, vpcDelete404]
        | unexpectedCode k =>
          rw [show waitForVpcDelete (Except.error (SdkErr.unexpectedCode k)) dl =
              { value := some zeroVpc, status := "ACTIVE",
                refreshErr := some (sdkErrMsg (SdkErr.unexpectedCode k)) }
            from rfl]
          rw [waitForState_cons_err]
          simp [vpcDeleteQuiet, vpcDelete404]
        | other m =>
          rw [show waitForVpcDelete (Except.error (SdkErr.other m)) dl =
              { value := some zeroVpc, status := "ACTIVE",
                refreshErr := some (sdkErrMsg (SdkErr.other m)) }
            from rfl]
          rw [waitForState_cons_err]
          simp [vpcDeleteQuiet, vpcDelete404]
      | ok r =>
        cases dl with
        | ok u =>
          rw [show waitForVpcDelete (Except.ok r) (Except.ok u) =
              { value := some r, status := "ACTIVE", refreshErr := none }
            from rfl]
          rw [waitForState_cons_pending _ _ _ _ _ (by simp) (by simp)]
          rw [ih]
          simp [vpcDeleteQuiet]
        | error e =>
          cases e with
          | default404 =>
            rw [show waitForVpcDelete (Except.ok r) (Except.error SdkErr.default404) =
                { value := some r, status := "DELETED", refreshErr := none }
              from rfl]
            rw [waitForState_cons_target _ _ _ _ _ (by simp)]
            simp [vpcDeleteQuiet, vpcDelete404]
          | unexpectedCode k =>
            by_cases hk : k = 409
            · subst hk
              rw [show waitForVpcDelete (Except.ok r) (Except.error (SdkErr.unexpectedCode 409)) =
                  { value := some r, status := "ACTIVE", refreshErr := none }
                from rfl]
              rw [waitForState_cons_pending _ _ _ _ _ (by simp) (by simp)]
              rw [ih]
              simp [vpcDeleteQuiet]
            · rw [show waitForVpcDelete (Except.ok r) (Except.error (SdkErr.unexpectedCode k)) =
                  { value := some r, status := "ACTIVE",
                    refreshErr := some (sdkErrMsg (SdkErr.unexpectedCode k)) }
                from by simp [waitForVpcDelete, hk]]
              rw [waitForState_cons_err]
              simp [vpcDeleteQuiet, vpcDelete404, hk]
          | other m =>
            rw [show waitForVpcDelete (Except.ok r) (Except.error (SdkErr.other m)) =
                { value := some r, status := "ACTIVE",
                  refreshErr := some (sdkErrMsg (SdkErr.other m)) }
              from rfl]
            rw [waitForState_cons_err]
            simp [vpcDeleteQuiet, vpcDelete404]

theorem C7_delete_loop_amended_witness :
    resourceCCEClusterV3Delete
      { envCBase with deleteResult := Except.error (SdkErr.other "conflict") } dC0 =
      (dC0, OpResult.err ("Error deleting HuaweiCloud CCE Cluster: " ++
        sdkErrMsg (SdkErr.other "conflict"))) :=
  (C7_delete_loop_amended
    { envCBase with deleteResult := Except.error (SdkErr.other "conflict") } dC0 [] []).1
    (SdkErr.other "conflict") rfl rfl

end HW
